import Mathlib

/-!
Verification of the SafeBrowse content-safety classifier and its
surrounding frontend glue (child browser, activity logs, PIN gating).

The backend classifier (`server.py`) is not part of the provided sources;
definitions in the `Classifier` section are modelled from the spec
(§3, §4.1) and from the repository README (thresholds, age bands,
rule-category examples).  The frontend definitions are shallow embeddings
of the TypeScript in `frontend/app/child/browser.tsx`,
`frontend/app/parent/logs.tsx` (src/unnamed/part_002) and
`frontend/app/parent/settings.tsx` (src/unnamed/part_003).
-/

/- ----------------------------------------------------------------- -/
/- Classifier data model (modelled from the spec §3)                 -/
/- ----------------------------------------------------------------- -/

/-- Content type of a classification request (spec §3). -/
inductive ContentType
  | text
  | url
  | image
deriving DecidableEq, Repr

/-- Per-profile safety level (spec §3). -/
inductive SafetyLevel
  | strict
  | moderate
  | lenient
deriving DecidableEq, Repr

/-- Modelled from the spec: a classification request (spec §3). -/
structure ClassificationRequest where
  contentType : ContentType
  content : String
  context : String
  safetyLevel : SafetyLevel
deriving DecidableEq, Repr

/-- Modelled from the spec: a single detection (spec §3). -/
structure Detection where
  reason : String
  weight : ℚ
deriving DecidableEq, Repr

/-- Modelled from the spec: the classifier's verdict (spec §3). -/
structure Verdict where
  isSafe : Bool
  blocked : Bool
  confidence : ℚ
  reasons : List String
deriving DecidableEq, Repr

/-- Modelled from the spec: the fixed SafetyLevel → threshold table
(spec §3: strict 0.80, moderate 0.65, lenient 0.50). -/
def threshold : SafetyLevel → ℚ
  | .strict => 4/5
  | .moderate => 13/20
  | .lenient => 1/2

/-- Minimum age of each safety band, from the README bundled with the
sources (strict: ages 5-8, moderate: ages 9-12, lenient: ages 13+).
Used to state the spec's "age band" ordering. -/
def minAge : SafetyLevel → ℕ
  | .strict => 5
  | .moderate => 9
  | .lenient => 13

/- ----------------------------------------------------------------- -/
/- Rule tables (modelled from the spec §4.1 and the README examples)  -/
/- ----------------------------------------------------------------- -/

/-- Modelled from the spec: explicit keyword list (README examples). -/
def explicitKeywords : List String := ["porn", "xxx", "nude"]

/-- Modelled from the spec: coded slang list (spec §4.1 examples). -/
def slangPhrases : List String := ["netflix and chill", "hook up"]

/-- Modelled from the spec: suggestive emoji set (README examples). -/
def suggestiveEmojis : List Char := ['🍆', '🍑', '💦']

/-- Modelled from the spec: violence keyword list (README examples). -/
def violenceKeywords : List String := ["kill", "murder", "weapon"]

/-- Modelled from the spec: fixed adult-domain blocklist (spec §4.1). -/
def adultDomains : List String :=
  ["pornhub.com", "xvideos.com", "xnxx.com", "knownadultdomain.example"]

/-- Modelled from the spec: URL keyword scan terms (spec §4.1 cat. 6). -/
def suspiciousUrlKeywords : List String := ["porn", "xxx", "adult", "sex"]

/-- Modelled from the spec: category weights (spec §4.1). -/
def wExplicit : ℚ := 1/2
def wSlang : ℚ := 7/20
def wEmoji : ℚ := 1/5
def wViolence : ℚ := 2/5
def wDomain : ℚ := 9/10
def wUrlKeyword : ℚ := 3/10

/-- Modelled from the spec: internal cap on the emoji category's
accumulated contribution (spec §4.1 cat. 3; exact value unspecified,
taken as three distinct matches' worth). -/
def emojiCap : ℚ := 3/5

/-- True iff `pat` occurs as a substring of `hay` (for nonempty `pat`). -/
def containsSub (hay pat : String) : Bool :=
  2 ≤ (hay.splitOn pat).length

/-- Punctuation characters stripped by text normalization. -/
def punctuationChars : List Char :=
  ['.', ',', '!', '?', ';', ':', '-', '_', '(', ')', '[', ']', '/', '\\']

/-- Modelled from the spec: normalization for text content — lower-case
and strip punctuation (spec §4.1 step 1). -/
def normalizeText (s : String) : String :=
  String.mk (s.toLower.data.filter (fun c => !(punctuationChars.contains c)))

/-- Modelled from the spec: hostname extraction for URL content; fails
(returns none) on an unparsable URL, in which case the domain category
silently skips (spec §4.1 edge cases). -/
def extractHostname (url : String) : Option String :=
  match url.toLower.splitOn "://" with
  | _ :: after :: _ =>
      let host := (after.splitOn "/").headD ""
      if host = "" then none else some host
  | _ => none

/-- First term of `keywords` matching `text` as a substring, if any. -/
def firstMatch (keywords : List String) (text : String) : Option String :=
  keywords.find? (fun k => containsSub text k)

/-- Turn an optional matched term into a zero- or one-element detection
list (a category contributes its weight once). -/
def catOpt (m : Option String) (f : String → Detection) : List Detection :=
  match m with
  | none => []
  | some t => [f t]

/-- Distinct suggestive emojis occurring in the original content. -/
def emojiMatches (content : String) : List Char :=
  suggestiveEmojis.filter (fun e => content.data.contains e)

/-- Modelled from the spec: emoji category score — per distinct emoji,
capped (spec §4.1 cat. 3). -/
def emojiScore (content : String) : ℚ :=
  min emojiCap (wEmoji * (emojiMatches content).length)

/-- Emoji category detections: one category-level detection when any
suggestive emoji occurs. -/
def emojiDetections (content : String) : List Detection :=
  if (emojiMatches content).isEmpty then []
  else [⟨"suggestive emoji", emojiScore content⟩]

/-- Adult-domain category: substring match of the extracted hostname
against the blocklist; skips when hostname extraction fails. -/
def domainDetections (url : String) : List Detection :=
  match extractHostname url with
  | none => []
  | some host =>
      match adultDomains.find? (fun d => containsSub host d) with
      | none => []
      | some _ => [⟨"known adult domain", wDomain⟩]

/-- Modelled from the spec: detections collected in category scan order
1→6 for the given content type (spec §4.1 steps 1-4): text runs
keyword → slang → emoji → violence; url runs keyword → slang → violence
→ domain → URL-keyword on the lower-cased URL string; image runs no
categories. -/
def detections (ct : ContentType) (content : String) : List Detection :=
  match ct with
  | .image => []
  | .text =>
      let norm := normalizeText content
      catOpt (firstMatch explicitKeywords norm)
          (fun t => ⟨"explicit keyword: " ++ t, wExplicit⟩)
        ++ catOpt (firstMatch slangPhrases norm)
          (fun t => ⟨"coded phrase: " ++ t, wSlang⟩)
        ++ emojiDetections content
        ++ catOpt (firstMatch violenceKeywords norm)
          (fun _ => ⟨"violence-related content", wViolence⟩)
  | .url =>
      let u := content.toLower
      catOpt (firstMatch explicitKeywords u)
          (fun t => ⟨"explicit keyword: " ++ t, wExplicit⟩)
        ++ catOpt (firstMatch slangPhrases u)
          (fun t => ⟨"coded phrase: " ++ t, wSlang⟩)
        ++ catOpt (firstMatch violenceKeywords u)
          (fun _ => ⟨"violence-related content", wViolence⟩)
        ++ domainDetections content
        ++ catOpt (firstMatch suspiciousUrlKeywords u)
          (fun _ => ⟨"suspicious URL pattern", wUrlKeyword⟩)

/-- Total score: sum of the contributing detections' weights. -/
def totalScore (ds : List Detection) : ℚ :=
  (ds.map Detection.weight).sum

/-- Modelled from the spec: `classify(request) -> Verdict` (spec §4.1):
accumulate the matched categories' weights, saturate at 1.0, compare
against the profile's threshold. -/
def classify (req : ClassificationRequest) : Verdict :=
  let ds := detections req.contentType req.content
  let confidence := min 1 (totalScore ds)
  let isSafe := decide (confidence < threshold req.safetyLevel)
  { isSafe := isSafe
    blocked := !isSafe
    confidence := confidence
    reasons := ds.map Detection.reason }

/- ----------------------------------------------------------------- -/
/- Classifier lemmas                                                  -/
/- ----------------------------------------------------------------- -/

theorem emojiScore_nonneg (content : String) : 0 ≤ emojiScore content := by
  unfold emojiScore emojiCap wEmoji
  apply le_min
  · norm_num
  · positivity

theorem detections_weight_nonneg (ct : ContentType) (content : String) :
    ∀ d ∈ detections ct content, 0 ≤ d.weight := by
  intro d hd
  cases ct <;> simp only [detections] at hd
  · -- text
    rcases List.mem_append.mp hd with h | h
    · rcases List.mem_append.mp h with h | h
      · rcases List.mem_append.mp h with h | h
        · unfold catOpt at h
          cases hm : firstMatch explicitKeywords (normalizeText content) <;>
            rw [hm] at h <;> simp at h
          subst h; unfold wExplicit; norm_num
        · unfold catOpt at h
          cases hm : firstMatch slangPhrases (normalizeText content) <;>
            rw [hm] at h <;> simp at h
          subst h; unfold wSlang; norm_num
      · unfold emojiDetections at h
        by_cases he : (emojiMatches content).isEmpty <;> simp [he] at h
        subst h; exact emojiScore_nonneg content
    · unfold catOpt at h
      cases hm : firstMatch violenceKeywords (normalizeText content) <;>
        rw [hm] at h <;> simp at h
      subst h; unfold wViolence; norm_num
  · -- url
    rcases List.mem_append.mp hd with h | h
    · rcases List.mem_append.mp h with h | h
      · rcases List.mem_append.mp h with h | h
        · rcases List.mem_append.mp h with h | h
          · unfold catOpt at h
            cases hm : firstMatch explicitKeywords content.toLower <;>
              rw [hm] at h <;> simp at h
            subst h; unfold wExplicit; norm_num
          · unfold catOpt at h
            cases hm : firstMatch slangPhrases content.toLower <;>
              rw [hm] at h <;> simp at h
            subst h; unfold wSlang; norm_num
        · unfold catOpt at h
          cases hm : firstMatch violenceKeywords content.toLower <;>
            rw [hm] at h <;> simp at h
          subst h; unfold wViolence; norm_num
      · unfold domainDetections at h
        split at h
        · simp at h
        · split at h
          · simp at h
          · simp at h
            subst h; unfold wDomain; norm_num
    · unfold catOpt at h
      cases hm : firstMatch suspiciousUrlKeywords content.toLower <;>
        rw [hm] at h <;> simp at h
      subst h; unfold wUrlKeyword; norm_num
  · -- image
    simp at hd

theorem totalScore_nonneg (ct : ContentType) (content : String) :
    0 ≤ totalScore (detections ct content) := by
  unfold totalScore
  apply List.sum_nonneg
  intro x hx
  rcases List.mem_map.mp hx with ⟨d, hd, rfl⟩
  exact detections_weight_nonneg ct content d hd

/-- C2: every verdict has confidence in [0,1], isSafe equal to
(confidence < threshold(safetyLevel)), blocked equal to !isSafe, and
hence blocked equal to (confidence ≥ threshold(safetyLevel)); there is
no third "flag but allow" state. -/
theorem classify_verdict_invariants (req : ClassificationRequest) :
    0 ≤ (classify req).confidence ∧
    (classify req).confidence ≤ 1 ∧
    (classify req).isSafe =
      decide ((classify req).confidence < threshold req.safetyLevel) ∧
    (classify req).blocked = !(classify req).isSafe ∧
    (classify req).blocked =
      decide (threshold req.safetyLevel ≤ (classify req).confidence) := by
  refine ⟨?_, ?_, ?_, ?_, ?_⟩
  · simp only [classify]
    exact le_min (by norm_num) (totalScore_nonneg _ _)
  · simp only [classify]
    exact min_le_left _ _
  · rfl
  · rfl
  · simp only [classify, Bool.not_eq_true']
    by_cases h : min 1 (totalScore (detections req.contentType req.content)) <
        threshold req.safetyLevel
    · simp [h, not_le.mpr h]
    · simp [h, not_lt.mp h]

/-- C3 counterexample: moving from the strict band (ages 5-8) to the
moderate band (ages 9-12) the age band increases but the threshold
decreases, so thresholds do not strictly increase with the age band. -/
theorem threshold_age_increase_counterexample :
    minAge SafetyLevel.strict < minAge SafetyLevel.moderate ∧
    threshold SafetyLevel.moderate < threshold SafetyLevel.strict := by
  constructor
  · norm_num [minAge]
  · norm_num [threshold]

/-- C3 (amended): the SafetyLevel → threshold mapping is the fixed table
strict ↦ 0.80, moderate ↦ 0.65, lenient ↦ 0.50, with
threshold(strict) > threshold(moderate) > threshold(lenient); thresholds
strictly DECREASE as the age band increases. -/
theorem threshold_table_decreasing :
    threshold SafetyLevel.strict = 4/5 ∧
    threshold SafetyLevel.moderate = 13/20 ∧
    threshold SafetyLevel.lenient = 1/2 ∧
    (threshold SafetyLevel.moderate < threshold SafetyLevel.strict ∧
      threshold SafetyLevel.lenient < threshold SafetyLevel.moderate) ∧
    ∀ l1 l2 : SafetyLevel, minAge l1 < minAge l2 →
      threshold l2 < threshold l1 := by
  refine ⟨rfl, rfl, rfl, ⟨by norm_num [threshold], by norm_num [threshold]⟩, ?_⟩
  intro l1 l2 h
  cases l1 <;> cases l2 <;> simp [minAge] at h ⊢ <;> norm_num [threshold]

/-- Witness for the amended C3 at the concrete pair (strict, moderate). -/
theorem threshold_table_decreasing_witness :
    threshold SafetyLevel.moderate < threshold SafetyLevel.strict :=
  threshold_table_decreasing.2.2.2.2 SafetyLevel.strict SafetyLevel.moderate
    (by norm_num [minAge])

/-- C4: image content always yields isSafe = true, confidence = 0,
reasons = [], blocked = false, regardless of content and safety level. -/
theorem classify_image_always_allows (content ctx : String)
    (lvl : SafetyLevel) :
    classify ⟨ContentType.image, content, ctx, lvl⟩ =
      { isSafe := true, blocked := false, confidence := 0, reasons := [] } := by
  have hmin : min (1 : ℚ) 0 = 0 := by norm_num
  have hpos : (0 : ℚ) < threshold lvl := by
    cases lvl <;> norm_num [threshold]
  simp only [classify, detections, totalScore, List.map_nil, List.sum_nil,
    hmin]
  have : decide ((0 : ℚ) < threshold lvl) = true := decide_eq_true hpos
  simp [this]

/- ----------------------------------------------------------------- -/
/- Child browser (frontend/app/child/browser.tsx)                     -/
/- ----------------------------------------------------------------- -/

/-- Response body of POST /api/content/analyze as consumed by the child
browser (`response.data.blocked`, `response.data.reasons`). -/
structure AnalyzeResponse where
  blocked : Bool
  reasons : List String
deriving DecidableEq, Repr

/-- The child browser's state that the analyzed claims talk about:
the address-bar text, the URL loaded in the WebView, and the
block-screen state. -/
structure BrowserState where
  url : String
  currentUrl : String
  blocked : Bool
  blockReason : String
deriving DecidableEq, Repr

/-- Embedding of `analyzeUrl` (browser.tsx lines 41-67): the POST's
outcome is `some response` on success and `none` when the request
throws; the function returns whether the content is allowed plus the
updated browser state.  On a blocked verdict it sets the blocked state
and the joined reasons and returns false; on a `blocked = false`
verdict it returns true; on a transport error it returns true without
touching the state (allow on error to not break browsing). -/
def analyzeUrl (s : BrowserState) (resp : Option AnalyzeResponse) :
    Bool × BrowserState :=
  match resp with
  | some r =>
      if r.blocked then
        (false, { s with blocked := true
                         blockReason := String.intercalate ", " r.reasons })
      else (true, s)
  | none => (true, s)

/-- JavaScript String.prototype.trim: strip leading and trailing
whitespace. -/
def strTrim (s : String) : String :=
  String.mk
    (((s.data.dropWhile Char.isWhitespace).reverse.dropWhile
        Char.isWhitespace).reverse)

/-- JavaScript String.prototype.startsWith. -/
def strStartsWith (s p : String) : Bool :=
  s.data.take p.data.length = p.data

/-- Embedding of the address normalization in `handleNavigate`
(browser.tsx lines 69-79): trim, return none on empty input, prepend
"https://" when no protocol is present. -/
def normalizeTarget (raw : String) : Option String :=
  let t := strTrim raw
  if t = "" then none
  else if strStartsWith t "http://" || strStartsWith t "https://" then some t
  else some ("https://" ++ t)

/-- Embedding of `handleNavigate` (browser.tsx lines 69-90): for a
nonempty normalized target, analyze it via the oracle `analyze` (the
POST to /api/content/analyze on that target); when allowed, load the
target and clear the blocked state. -/
def handleNavigate (s : BrowserState)
    (analyze : String → Option AnalyzeResponse) : BrowserState :=
  match normalizeTarget s.url with
  | none => s
  | some target =>
      let p := analyzeUrl s (analyze target)
      if p.1 then { p.2 with currentUrl := target, blocked := false }
      else p.2

/-- C1: when the POST to /api/content/analyze fails (the request
throws, modelled as a `none` outcome), `analyzeUrl` returns true and
leaves the browser state — in particular the blocked state — unchanged:
the documented fail-open-on-transport-error policy. -/
theorem analyzeUrl_transport_error_fail_open (s : BrowserState) :
    analyzeUrl s none = (true, s) := rfl

/-- C5: the `blocked` field of the analyze response drives the
block-screen UI.  If the response for the navigation target has
`blocked = true`, the browser state gets `blocked := true` with
`blockReason` the reasons joined by ", " and `currentUrl` is not
updated; if it has `blocked = false`, `handleNavigate` sets
`currentUrl` to the target and clears the blocked state. -/
theorem handleNavigate_blocked_drives_ui (s : BrowserState)
    (analyze : String → Option AnalyzeResponse)
    (target : String) (r : AnalyzeResponse)
    (htarget : normalizeTarget s.url = some target)
    (hresp : analyze target = some r) :
    (r.blocked = true →
      handleNavigate s analyze =
        { s with blocked := true
                 blockReason := String.intercalate ", " r.reasons } ∧
      (handleNavigate s analyze).currentUrl = s.currentUrl) ∧
    (r.blocked = false →
      handleNavigate s analyze =
        { s with currentUrl := target, blocked := false }) := by
  constructor
  · intro hb
    unfold handleNavigate
    rw [htarget]
    simp only [analyzeUrl, hresp, hb, if_true]
    exact ⟨rfl, rfl⟩
  · intro hb
    unfold handleNavigate
    rw [htarget]
    simp only [analyzeUrl, hresp, hb]
    rfl

/-- Witness for C5 at a concrete state and blocked response. -/
theorem handleNavigate_blocked_drives_ui_witness :
    handleNavigate ⟨"https://bad.example", "https://www.google.com",
        false, ""⟩
      (fun _ => some ⟨true, ["known adult domain"]⟩) =
      ⟨"https://bad.example", "https://www.google.com",
        true, "known adult domain"⟩ :=
  ((handleNavigate_blocked_drives_ui
      ⟨"https://bad.example", "https://www.google.com", false, ""⟩
      (fun _ => some ⟨true, ["known adult domain"]⟩)
      "https://bad.example" ⟨true, ["known adult domain"]⟩
      (by decide) rfl).1 rfl).1

/-- C8: protocol normalization happens before the classifier is
invoked.  For every address whose trimmed form is nonempty: if it
starts with neither "http://" nor "https://", the submitted target is
"https://" prepended to the trimmed address; if it already carries a
protocol it is submitted as-is. -/
theorem handleNavigate_protocol_normalization (raw : String)
    (hne : strTrim raw ≠ "") :
    (strStartsWith (strTrim raw) "http://" = false →
      strStartsWith (strTrim raw) "https://" = false →
      normalizeTarget raw = some ("https://" ++ strTrim raw)) ∧
    ((strStartsWith (strTrim raw) "http://" = true ∨
        strStartsWith (strTrim raw) "https://" = true) →
      normalizeTarget raw = some (strTrim raw)) := by
  constructor
  · intro h1 h2
    unfold normalizeTarget
    simp [hne, h1, h2]
  · intro h
    unfold normalizeTarget
    rcases h with h | h <;> simp [hne, h]

/-- Witness for C8 at the concrete address "google.com". -/
theorem handleNavigate_protocol_normalization_witness :
    normalizeTarget "google.com" = some "https://google.com" :=
  ((handleNavigate_protocol_normalization "google.com" (by decide)).1
    (by decide) (by decide)).trans (by decide)

/- ----------------------------------------------------------------- -/
/- Injected monitoring script (browser.tsx lines 159-185)             -/
/- ----------------------------------------------------------------- -/

/-- Embedding of the injected monitoring script's text extraction
(browser.tsx lines 159-185): document.body.innerText.substring(0, 500),
the chunk subsequently posted to /api/content/analyze by
`handleWebViewMessage`. -/
def extractTextChunk (bodyText : String) : String :=
  String.mk (bodyText.data.take 500)

/-- C7: every page-text chunk the child browser submits for analysis
has length at most 500 characters. -/
theorem extractTextChunk_length_le_500 (bodyText : String) :
    (extractTextChunk bodyText).length ≤ 500 := by
  show (bodyText.data.take 500).length ≤ 500
  rw [List.length_take]
  exact min_le_left _ _

/- ----------------------------------------------------------------- -/
/- Activity logs screen (src/unnamed/part_002, parent logs view)      -/
/- ----------------------------------------------------------------- -/

/-- Activity-log entry as consumed by the Logs screen (the fields the
filter and the rendering use). -/
structure Log where
  id : String
  profile_id : String
  profile_name : String
  content_type : String
  detected_at : String
  is_safe : Bool
  confidence : ℚ
  reasons : List String
  content_snippet : String
  url : Option String
deriving DecidableEq, Repr

/-- Embedding of `filteredLogs` (part_002 line 95): the Logs screen
renders `logs.filter((log) => !log.is_safe)`. -/
def filteredLogs (logs : List Log) : List Log :=
  logs.filter (fun log => !log.is_safe)

/-- C6: only blocked content appears in the activity log view — every
entry rendered by the Activity Logs screen has is_safe = false; entries
with is_safe = true are filtered out before display. -/
theorem filteredLogs_only_unsafe (logs : List Log) (log : Log)
    (h : log ∈ filteredLogs logs) : log.is_safe = false := by
  unfold filteredLogs at h
  have := List.of_mem_filter h
  simpa using this

/-- Sample blocked activity-log entry, used by the C6 witness. -/
def sampleLog : Log :=
  { id := "1", profile_id := "p1", profile_name := "Kid",
    content_type := "url", detected_at := "2026-01-01",
    is_safe := false, confidence := 9/10,
    reasons := ["known adult domain"], content_snippet := "",
    url := some "http://bad.example" }

/-- Witness for C6 at a concrete one-entry log list. -/
theorem filteredLogs_only_unsafe_witness : sampleLog.is_safe = false :=
  filteredLogs_only_unsafe [sampleLog] sampleLog
    (by simp [filteredLogs, sampleLog])


/- ----------------------------------------------------------------- -/
/- PIN gating (dashboard enterChildMode, browser verifyPinAndExit)    -/
/- ----------------------------------------------------------------- -/

/-- Parent/child app mode (contexts/AppModeContext.tsx). -/
inductive AppMode
  | parent
  | child
deriving DecidableEq, Repr

/-- App-level state the PIN-gating claims talk about: the current mode,
the parent user's optional PIN (`user?.pin`), the selected child
profile, the exit-modal visibility and the PIN entry field. -/
structure AppState where
  mode : AppMode
  userPin : Option String
  selectedProfile : Option String
  exitModalVisible : Bool
  pinInput : String
deriving DecidableEq, Repr

/-- JavaScript truthiness of the optional PIN string: `!user?.pin` is
true when the PIN is absent or the empty string. -/
def pinIsSet : Option String → Bool
  | none => false
  | some p => !(p = "")

/-- Embedding of `enterChildMode` (dashboard, src/unnamed/part_001
lines 76-92): if `!user?.pin`, alert and return without switching;
otherwise select the profile and switch to child mode. -/
def enterChildMode (s : AppState) (profileId : String) : AppState :=
  if pinIsSet s.userPin then
    { s with selectedProfile := some profileId, mode := AppMode.child }
  else s

/-- Embedding of `verifyPinAndExit` (browser.tsx lines 141-151): when
the entered pin strictly equals `user?.pin` (JS `===`; never true when
the PIN is absent), switch to parent mode, close the modal and clear
the entry; otherwise alert and clear the entry only. -/
def verifyPinAndExit (s : AppState) : AppState :=
  if s.userPin = some s.pinInput then
    { s with mode := AppMode.parent, exitModalVisible := false,
             pinInput := "" }
  else { s with pinInput := "" }

/-- C9: PIN gating invariant.  `enterChildMode` leaves the state
unchanged when no PIN is set (in particular when `user.pin` is absent),
so the app enters child mode only with a PIN set; `verifyPinAndExit`
switches the mode to parent exactly when the entered pin equals
`user.pin`, and on any mismatch the mode is unchanged (stays child)
and the pin input is cleared. -/
theorem pin_gating_invariant (s : AppState) (profileId : String) :
    (s.userPin = none → enterChildMode s profileId = s) ∧
    ((enterChildMode s profileId).mode = AppMode.child →
      s.mode = AppMode.child ∨ pinIsSet s.userPin = true) ∧
    (s.userPin = some s.pinInput →
      (verifyPinAndExit s).mode = AppMode.parent) ∧
    (s.userPin ≠ some s.pinInput →
      (verifyPinAndExit s).mode = s.mode ∧
      (verifyPinAndExit s).pinInput = "") := by
  refine ⟨?_, ?_, ?_, ?_⟩
  · intro h
    unfold enterChildMode
    rw [h]
    rfl
  · intro h
    by_cases hp : pinIsSet s.userPin = true
    · exact Or.inr hp
    · left
      unfold enterChildMode at h
      rw [Bool.not_eq_true] at hp
      rw [hp] at h
      simpa using h
  · intro h
    unfold verifyPinAndExit
    rw [if_pos h]
  · intro h
    unfold verifyPinAndExit
    rw [if_neg h]
    exact ⟨rfl, rfl⟩

/-- Witness for C9 at a concrete child-mode state with a wrong entered
pin: the mode stays child and the entry is cleared. -/
theorem pin_gating_invariant_witness :
    (verifyPinAndExit
        ⟨AppMode.child, some "1234", some "p1", true, "9999"⟩).mode =
      AppMode.child ∧
    (verifyPinAndExit
        ⟨AppMode.child, some "1234", some "p1", true, "9999"⟩).pinInput =
      "" :=
  (pin_gating_invariant
      ⟨AppMode.child, some "1234", some "p1", true, "9999"⟩ "p1").2.2.2
    (by decide)

/- ----------------------------------------------------------------- -/
/- Settings PIN update (src/unnamed/part_003 lines 488-508)           -/
/- ----------------------------------------------------------------- -/

/-- The JavaScript regex test /^\d{4}$/.test(pin): exactly four decimal
digits. -/
def fourDigitTest (pin : String) : Bool :=
  decide (pin.data.length = 4) && pin.data.all Char.isDigit

/-- Embedding of `handlePinUpdate` (settings, src/unnamed/part_003
lines 488-508): validate the new PIN's length and digit pattern, then
the confirmation match; return the PIN handed to `updatePin` when the
update request is made, none otherwise (stored PIN unchanged). -/
def handlePinUpdate (newPin confirmPin : String) : Option String :=
  if newPin.data.length ≠ 4 ∨ fourDigitTest newPin = false then none
  else if newPin ≠ confirmPin then none
  else some newPin

/-- C10: `handlePinUpdate` invokes `updatePin` (returns some) exactly
when the new PIN is four characters, all decimal digits, and equal to
the confirmation PIN — and then with precisely that PIN; in every other
case no update request is made. -/
theorem handlePinUpdate_validation (newPin confirmPin p : String) :
    handlePinUpdate newPin confirmPin = some p ↔
      (p = newPin ∧ newPin.data.length = 4 ∧
        newPin.data.all Char.isDigit = true ∧ newPin = confirmPin) := by
  constructor
  · intro h
    unfold handlePinUpdate at h
    by_cases hcond : newPin.data.length ≠ 4 ∨ fourDigitTest newPin = false
    · rw [if_pos hcond] at h
      exact absurd h (by simp)
    · rw [if_neg hcond] at h
      push_neg at hcond
      obtain ⟨h4, hdne⟩ := hcond
      by_cases hc : newPin ≠ confirmPin
      · rw [if_pos hc] at h
        exact absurd h (by simp)
      · rw [if_neg hc] at h
        push_neg at hc
        have hp : p = newPin := by
          injection h with h'
          exact h'.symm
        have hd : newPin.data.all Char.isDigit = true := by
          have hft : fourDigitTest newPin = true := by
            cases hb : fourDigitTest newPin
            · exact absurd hb hdne
            · rfl
          simp only [fourDigitTest, Bool.and_eq_true] at hft
          exact hft.2
        exact ⟨hp, h4, hd, hc⟩
  · rintro ⟨hp, h4, hd, hc⟩
    rw [hp]
    have hft : fourDigitTest newPin = true := by
      simp only [fourDigitTest, Bool.and_eq_true]
      exact ⟨decide_eq_true h4, hd⟩
    unfold handlePinUpdate
    rw [if_neg (by push_neg; exact ⟨h4, by rw [hft]; exact Bool.noConfusion⟩)]
    rw [if_neg (by push_neg; exact hc)]

/-- Witness for C10 at the concrete valid pair ("1234", "1234"). -/
theorem handlePinUpdate_validation_witness :
    handlePinUpdate "1234" "1234" = some "1234" :=
  (handlePinUpdate_validation "1234" "1234" "1234").mpr
    ⟨rfl, by decide, by decide, rfl⟩
